import Mathlib

/-
Verification of the RPC correlator and session lifecycle of the vkmax-node
client (src/src/client.ts).  The client is a single-threaded event-driven
object; we embed its observable state as a record and each handler
(connect, the message listener, the per-request timeout callback,
disconnect, the post-response part of the login flows) as a pure function
from state to state plus an explicit action/result describing the effect
the JavaScript code performs (resolving a promise, rejecting it, invoking
the event callback, throwing).
-/

namespace VkMax

/-- JSON values as produced by JSON.parse: the possible shapes of the
dynamically typed payload fields (payload: any in types.ts). -/
inductive Json where
  | null
  | bool (b : Bool)
  | num  (n : Int)
  | str  (s : String)
  | arr  (elems : List Json)
  | obj  (fields : List (String × Json))

/-- RPC_VERSION from constants.ts line 13. -/
def RPC_VERSION : Nat := 11

/-- OPCODES.KEEPALIVE from constants.ts. -/
def OPCODE_KEEPALIVE : Nat := 1

/-- OPCODES.HELLO from constants.ts. -/
def OPCODE_HELLO : Nat := 6

/-- OPCODES.START_AUTH from constants.ts. -/
def OPCODE_START_AUTH : Nat := 17

/-- OPCODES.VERIFY_CODE from constants.ts. -/
def OPCODE_VERIFY_CODE : Nat := 18

/-- OPCODES.LOGIN_BY_TOKEN from constants.ts. -/
def OPCODE_LOGIN_BY_TOKEN : Nat := 19

/-- OPCODES.SEND_MESSAGE from constants.ts. -/
def OPCODE_SEND_MESSAGE : Nat := 64

/-- Duration passed to setTimeout in invokeMethod (client.ts line 112). -/
def REQUEST_TIMEOUT_MS : Nat := 30000

/-- Interval passed to setInterval in the keepalive task (client.ts line 185). -/
def KEEPALIVE_INTERVAL_MS : Nat := 30000

/-- Wire envelope built by invokeMethod (client.ts lines 91-97); the
RpcRequest interface of types.ts. -/
structure RpcRequest where
  ver : Nat
  cmd : Nat
  seq : Nat
  opcode : Nat
  payload : Json

/-- Parsed incoming frame; the RpcResponse interface of types.ts (ver, cmd,
seq, opcode, payload, optional top-level error). -/
structure RpcResponse where
  ver : Nat
  cmd : Nat
  seq : Nat
  opcode : Nat
  payload : Json
  error : Option Json

/-- Errors the client code throws or rejects promises with.  Each
constructor corresponds to one throw site in client.ts:
alreadyConnected to the throw in connect (line 38), notConnected to the
guard throw used by invokeMethod, disconnect, sendCode, signIn and
loginByToken, requestTimeout to the timeout rejection in invokeMethod
(line 110), keepaliveAlreadyStarted to the throw in the private
keepalive-task starter (line 175), appError e to the
throw of the application-level error value found in a response payload
(lines 245 and 282), and typeError to the runtime TypeError raised by a
JavaScript property access on a null value. -/
inductive ClientError where
  | alreadyConnected
  | notConnected
  | requestTimeout
  | keepaliveAlreadyStarted
  | appError (e : Json)
  | typeError

/-- Observable state of a MaxClient instance: the private fields declared
in client.ts lines 24-31.  The WebSocket handle, timer handles and the
callback are modelled by their nullness (Bool: true when non-null); the
pending Map is modelled by its key set, since an entry holds only the
resolve/reject closures of the invokeMethod promise identified by that
sequence number. -/
structure ClientState where
  connection : Bool
  isLoggedIn : Bool
  seq : Nat
  keepaliveTask : Bool
  recvTask : Bool
  incomingEventCallback : Bool
  pending : List Nat
  isConnected : Bool
deriving DecidableEq

/-- Field initializers of MaxClient (client.ts lines 24-31): no connection,
not logged in, seq starts at 1, no timers, no callback, empty pending map. -/
def initialState : ClientState :=
  ⟨false, false, 1, false, false, false, [], false⟩

/-- Key set after Map.set: adds the key if absent (Map.set on a present key
only replaces the value). -/
def mapSet (m : List Nat) (k : Nat) : List Nat :=
  if m.contains k then m else m ++ [k]

/-- Key set after Map.delete: the key is removed. -/
def mapDelete (m : List Nat) (k : Nat) : List Nat :=
  m.filter (fun x => x != k)

/-- JavaScript member access v.k on a parsed JSON value, as performed by
the untyped casts in client.ts (payload as VerificationPayload, payload as
AuthToken): on null it throws a TypeError at runtime, on an object it
yields the field value or undefined (none) when the key is absent, and on
any other value (string, number, boolean, array) it yields undefined. -/
def jsMember (v : Json) (k : String) : Except ClientError (Option Json) :=
  match v with
  | .null => .error .typeError
  | .obj fields => .ok (lookupField fields k)
  | _ => .ok none
where
  /-- First binding of the key in the field list (JSON.parse keeps one
  binding per key). -/
  lookupField : List (String × Json) → String → Option Json
  | [], _ => none
  | (k, v) :: rest, key => if k == key then some v else lookupField rest key

/-- JavaScript truthiness of a JSON value, as tested by the conditionals
of client.ts (for example line 244): null, false, 0 and the empty string
are falsy; every other value is truthy. -/
def jsTruthy : Json → Bool
  | .null => false
  | .bool b => b
  | .num n => n != 0
  | .str s => s.length != 0
  | .arr _ => true
  | .obj _ => true

/-- Whether the member access p.k on a non-null value yields a truthy
result (the shape of the guard if (responsePayload.error) in client.ts). -/
def truthyField (p : Json) (k : String) : Bool :=
  match jsMember p k with
  | .ok (some v) => jsTruthy v
  | _ => false

/-- Whether an object payload carries the given key at all. -/
def hasField (p : Json) (k : String) : Bool :=
  match p with
  | .obj fields => (jsMember.lookupField fields k).isSome
  | _ => false

/-- connect (client.ts lines 36-64): throws Already connected when the
handle is non-null, otherwise assigns a fresh WebSocket to the handle
synchronously (inside the promise executor, before the open event fires)
and installs the open/error/close listeners.  The returned state is the
state right after the call, i.e. the Connecting state. -/
def connect (st : ClientState) : Except ClientError ClientState :=
  if st.connection then .error .alreadyConnected
  else .ok { st with connection := true }

/-- The open listener installed by connect (client.ts lines 46-51): marks
connected and starts the receive loop (which only attaches the message
listener; the recvTask field is never assigned). -/
def onOpen (st : ClientState) : ClientState :=
  { st with isConnected := true }

/-- The close listener installed by connect (client.ts lines 58-62):
clears the connected mark and nulls the handle. -/
def onClose (st : ClientState) : ClientState :=
  { st with isConnected := false, connection := false }

/-- invokeMethod (client.ts lines 85-114): throws notConnected when the
handle is null; otherwise allocates seq as the current counter value and
post-increments the counter, builds the envelope with ver RPC_VERSION and
cmd 0, registers the pending entry under seq, and sends the serialized
envelope.  The returned request is the envelope handed to connection.send;
the per-request timeout is armed at the same time and fires later as
timeoutFire. -/
def invokeMethod (st : ClientState) (opcode : Nat) (payload : Json) :
    ClientState × Except ClientError RpcRequest :=
  if !st.connection then (st, .error .notConnected)
  else
    let seq := st.seq
    let request : RpcRequest := ⟨RPC_VERSION, 0, seq, opcode, payload⟩
    ({ st with seq := st.seq + 1, pending := mapSet st.pending seq }, .ok request)

/-- Effect of handling one incoming frame: either the pending entry keyed
by the given seq is resolved with the given frame, or the frame is handed
to the registered incoming-event callback, or it is dropped because no
callback is registered. -/
inductive DispatchAction where
  | resolved (seq : Nat) (frame : RpcResponse)
  | event (frame : RpcResponse)
  | dropped

/-- The message listener attached by the receive loop (client.ts lines
134-155), applied to one successfully parsed frame: looks up frame.seq in
the pending map; if present, deletes the entry and then resolves its
promise with the whole frame; otherwise, if an incoming-event callback is
registered, schedules it with the frame, else does nothing. -/
def handleFrame (st : ClientState) (frame : RpcResponse) :
    ClientState × DispatchAction :=
  if st.pending.contains frame.seq then
    ({ st with pending := mapDelete st.pending frame.seq }, .resolved frame.seq frame)
  else if st.incomingEventCallback then (st, .event frame)
  else (st, .dropped)

/-- Effect of a timeout callback firing: either the pending entry was
still present and its promise is rejected, or nothing happens. -/
inductive TimeoutAction where
  | rejected (e : ClientError)
  | noop

/-- The setTimeout callback armed by invokeMethod for one seq (client.ts
lines 107-112): if the pending map still has the seq, delete the entry and
reject with Request timeout; otherwise do nothing. -/
def timeoutFire (st : ClientState) (seq : Nat) : ClientState × TimeoutAction :=
  if st.pending.contains seq then
    ({ st with pending := mapDelete st.pending seq }, .rejected .requestTimeout)
  else (st, .noop)

/-- The private keepalive-task starter (client.ts lines 173-186): throws
when a keepalive timer handle already exists, otherwise stores the
setInterval handle. -/
def startKeepaliveTask (st : ClientState) : Except ClientError ClientState :=
  if st.keepaliveTask then .error .keepaliveAlreadyStarted
  else .ok { st with keepaliveTask := true }

/-- The private keepalive-task stopper (client.ts lines 191-197): clears
the interval and nulls the handle when present, otherwise does nothing. -/
def stopKeepaliveTask (st : ClientState) : ClientState :=
  if st.keepaliveTask then { st with keepaliveTask := false } else st

/-- disconnect (client.ts lines 69-80): throws notConnected when the
handle is null; otherwise stops the keepalive task, clears the recv
interval if its handle is set (it never is: the field is never assigned),
calls close() on the transport and clears the connected mark.  The Bool in
the result records that close() was invoked on the transport.  The logged
in flag is not touched. -/
def disconnect (st : ClientState) : Except ClientError (ClientState × Bool) :=
  if !st.connection then .error .notConnected
  else
    let st1 := stopKeepaliveTask st
    .ok ({ st1 with isConnected := false }, true)

/-- Shared tail of signIn and loginByToken after the no-error branch
(client.ts lines 248-255 and 285-292): optionally log the profile, set the
logged-in flag to true, then start the keepalive task (which may throw
keepaliveAlreadyStarted, in which case the flag assignment has already
happened), and return the response. -/
def completeLogin (st : ClientState) (resp : RpcResponse) :
    ClientState × Except ClientError RpcResponse :=
  let st1 := { st with isLoggedIn := true }
  match startKeepaliveTask st1 with
  | .error e => (st1, .error e)
  | .ok st2 => (st2, .ok resp)

/-- Continuation of signIn after the awaited VERIFY_CODE response arrives
(client.ts lines 243-255): reads responsePayload.error through the
VerificationPayload cast (a TypeError on a null payload), throws the error
value when it is truthy, and otherwise completes the login. -/
def signInAfterResponse (st : ClientState) (resp : RpcResponse) :
    ClientState × Except ClientError RpcResponse :=
  match jsMember resp.payload "error" with
  | .error e => (st, .error e)
  | .ok (some errVal) =>
      if jsTruthy errVal then (st, .error (.appError errVal))
      else completeLogin st resp
  | .ok none => completeLogin st resp

/-- Continuation of loginByToken after the awaited LOGIN_BY_TOKEN response
arrives (client.ts lines 280-292): same error check and login completion
as signIn. -/
def loginByTokenAfterResponse (st : ClientState) (resp : RpcResponse) :
    ClientState × Except ClientError RpcResponse :=
  match jsMember resp.payload "error" with
  | .error e => (st, .error e)
  | .ok (some errVal) =>
      if jsTruthy errVal then (st, .error (.appError errVal))
      else completeLogin st resp
  | .ok none => completeLogin st resp

/-- Value returned by sendCode from the START_AUTH response (client.ts
line 225): the token member of the payload read through the AuthToken
cast, with no inspection of any error field; none models the JavaScript
undefined result when the field is absent. -/
def sendCodeExtractToken (resp : RpcResponse) : Except ClientError (Option Json) :=
  jsMember resp.payload "token"

/-- Folds a list of (opcode, payload) calls through invokeMethod,
collecting the seq field of each successfully sent envelope. -/
def applyInvokes : ClientState → List (Nat × Json) → ClientState × List Nat
  | st, [] => (st, [])
  | st, (op, p) :: rest =>
    match invokeMethod st op p with
    | (st1, .ok req) =>
      let res := applyInvokes st1 rest
      (res.1, req.seq :: res.2)
    | (st1, .error _) => applyInvokes st1 rest

/-- Client state right after connect returns, before the open event: the
handle is assigned but isConnected is still false. -/
def connectingState : ClientState :=
  { initialState with connection := true }

/-- Client state after connect and the open event, before any request. -/
def openState : ClientState :=
  { initialState with connection := true, isConnected := true }

/-- Open, logged-in client with a running keepalive task, as left by a
successful login. -/
def loggedInState : ClientState :=
  { initialState with connection := true, isConnected := true, isLoggedIn := true, keepaliveTask := true, seq := 5 }

/-- VERIFY_CODE response whose payload carries an error field holding the
empty string. -/
def emptyErrorResp : RpcResponse :=
  ⟨11, 1, 1, 18, Json.obj [("error", Json.str "")], none⟩

/-- VERIFY_CODE response whose payload carries the error value bad_code. -/
def badCodeResp : RpcResponse :=
  ⟨11, 1, 1, 18, Json.obj [("error", Json.str "bad_code")], none⟩

/-- VERIFY_CODE response whose payload is the JSON value null. -/
def nullPayloadResp : RpcResponse :=
  ⟨11, 1, 2, 18, Json.null, none⟩

/-- VERIFY_CODE response with a profile and no error field. -/
def okLoginResp : RpcResponse :=
  ⟨11, 1, 3, 18, Json.obj [("profile", Json.obj [("phone", Json.str "+70000000000")])], none⟩

/-- START_AUTH response whose payload is the JSON value null. -/
def nullStartAuthResp : RpcResponse :=
  ⟨11, 1, 2, 17, Json.null, none⟩

/-- START_AUTH response whose payload carries only an error field. -/
def errorOnlyStartAuthResp : RpcResponse :=
  ⟨11, 1, 2, 17, Json.obj [("error", Json.str "rate_limited")], none⟩

/-- Open client after one invokeMethod call: seq counter advanced to 2 and
request 1 outstanding. -/
def pendingOneState : ClientState :=
  { openState with seq := 2, pending := [1] }

/-- Synthetic server reply to request 1 (the scenario of spec section 8:
seq 1, opcode 64, payload carrying ok true). -/
def syntheticResp : RpcResponse :=
  ⟨11, 1, 1, 64, Json.obj [("ok", Json.bool true)], none⟩

/-- Open client with a registered incoming-event callback and nothing
pending. -/
def callbackState : ClientState :=
  { openState with incomingEventCallback := true }

end VkMax

namespace VkMax

theorem mem_mapDelete_self (m : List Nat) (k : Nat) : k ∉ mapDelete m k := by
  simp [mapDelete]

theorem contains_mapDelete (m : List Nat) (k : Nat) :
    (mapDelete m k).contains k = false := by
  have h := mem_mapDelete_self m k
  simpa using h

theorem handleFrame_unsolicited (st : ClientState) (frame : RpcResponse)
    (h : st.pending.contains frame.seq = false) :
    (handleFrame st frame).1 = st
    ∧ (∀ q f, (handleFrame st frame).2 ≠ DispatchAction.resolved q f)
    ∧ (st.incomingEventCallback = true → handleFrame st frame = (st, .event frame))
    ∧ (st.incomingEventCallback = false → handleFrame st frame = (st, .dropped)) := by
  have hm : frame.seq ∉ st.pending := by simpa using h
  cases hcb : st.incomingEventCallback <;> simp [handleFrame, hm, hcb]

theorem handleFrame_resolves (st : ClientState) (frame : RpcResponse)
    (h : st.pending.contains frame.seq = true) :
    handleFrame st frame
      = ({ st with pending := mapDelete st.pending frame.seq },
         DispatchAction.resolved frame.seq frame) := by
  have hm : frame.seq ∈ st.pending := by simpa using h
  simp [handleFrame, hm]

end VkMax

namespace VkMax

theorem timeoutFire_pending (st : ClientState) (s : Nat)
    (h : st.pending.contains s = true) :
    timeoutFire st s
      = ({ st with pending := mapDelete st.pending s },
         TimeoutAction.rejected ClientError.requestTimeout) := by
  have hm : s ∈ st.pending := by simpa using h
  simp [timeoutFire, hm]

theorem timeoutFire_absent (st : ClientState) (s : Nat)
    (h : st.pending.contains s = false) :
    timeoutFire st s = (st, TimeoutAction.noop) := by
  have hm : s ∉ st.pending := by simpa using h
  simp [timeoutFire, hm]

theorem applyInvokes_spec (calls : List (Nat × Json)) :
    ∀ st : ClientState, st.connection = true →
      (applyInvokes st calls).2 = List.range' st.seq calls.length
      ∧ (applyInvokes st calls).1.seq = st.seq + calls.length
      ∧ (applyInvokes st calls).1.connection = true := by
  induction calls with
  | nil =>
    intro st h
    exact ⟨rfl, rfl, h⟩
  | cons c rest ih =>
    intro st h
    obtain ⟨op, p⟩ := c
    have hinv : invokeMethod st op p
        = ({ st with seq := st.seq + 1, pending := mapSet st.pending st.seq },
           .ok ⟨RPC_VERSION, 0, st.seq, op, p⟩) := by
      simp [invokeMethod, h]
    have hrec := ih { st with seq := st.seq + 1, pending := mapSet st.pending st.seq } h
    refine ⟨?_, ?_, ?_⟩
    · show (applyInvokes st ((op, p) :: rest)).2 = List.range' st.seq (rest.length + 1)
      rw [List.range'_succ]
      simp only [applyInvokes, hinv]
      rw [hrec.1]
    · show (applyInvokes st ((op, p) :: rest)).1.seq = st.seq + (rest.length + 1)
      have h2 : (applyInvokes { st with seq := st.seq + 1, pending := mapSet st.pending st.seq } rest).1.seq
          = st.seq + 1 + rest.length := hrec.2.1
      simp only [applyInvokes, hinv]
      omega
    · show (applyInvokes st ((op, p) :: rest)).1.connection = true
      simp only [applyInvokes, hinv]
      exact hrec.2.2

end VkMax

namespace VkMax

theorem jsMember_error_imp_null (v : Json) (k : String) (e : ClientError)
    (h : jsMember v k = Except.error e) : v = Json.null := by
  cases v
  case null => rfl
  all_goals simp [jsMember] at h

theorem signInAfterResponse_truthy_error (st : ClientState) (resp : RpcResponse) (e : Json)
    (h : jsMember resp.payload "error" = Except.ok (some e)) (ht : jsTruthy e = true) :
    signInAfterResponse st resp = (st, Except.error (ClientError.appError e)) := by
  unfold signInAfterResponse
  rw [h]
  simp [ht]

theorem signInAfterResponse_no_truthy_error (st : ClientState) (resp : RpcResponse)
    (hnn : resp.payload ≠ Json.null)
    (herr : truthyField resp.payload "error" = false) :
    signInAfterResponse st resp = completeLogin st resp := by
  unfold signInAfterResponse
  cases hm : jsMember resp.payload "error" with
  | error e => exact absurd (jsMember_error_imp_null _ _ _ hm) hnn
  | ok v =>
    cases v with
    | none => rfl
    | some errVal =>
      unfold truthyField at herr
      rw [hm] at herr
      simp at herr
      simp [herr]

theorem loginByToken_eq_signIn : loginByTokenAfterResponse = signInAfterResponse := rfl

theorem completeLogin_keepalive_running (st : ClientState) (resp : RpcResponse)
    (hk : st.keepaliveTask = true) :
    completeLogin st resp
      = ({ st with isLoggedIn := true }, Except.error ClientError.keepaliveAlreadyStarted) := by
  simp [completeLogin, startKeepaliveTask, hk]

theorem completeLogin_fresh (st : ClientState) (resp : RpcResponse)
    (hk : st.keepaliveTask = false) :
    completeLogin st resp
      = ({ st with isLoggedIn := true, keepaliveTask := true }, Except.ok resp) := by
  simp [completeLogin, startKeepaliveTask, hk]

end VkMax

namespace VkMax

/-- Claim C1: for every incoming frame whose seq matches a pending request
entry, the message handler resolves the corresponding invokeMethod call
with exactly that frame — the whole parsed envelope, unmodified — and the
entry is removed from the pending table at resolution (the post-resolution
state no longer contains it); a later duplicate frame carrying the same
seq finds no entry, leaves the state unchanged, is never a second
resolution, and is treated as an unsolicited event (handed to the
registered callback when one exists). -/
theorem response_resolves_matching_request (st : ClientState) (frame : RpcResponse)
    (h : st.pending.contains frame.seq = true) :
    (handleFrame st frame).2 = DispatchAction.resolved frame.seq frame
    ∧ (handleFrame st frame).1.pending.contains frame.seq = false
    ∧ (∀ dup : RpcResponse, dup.seq = frame.seq →
        (handleFrame (handleFrame st frame).1 dup).1 = (handleFrame st frame).1
        ∧ (∀ q f, (handleFrame (handleFrame st frame).1 dup).2 ≠ DispatchAction.resolved q f)
        ∧ (st.incomingEventCallback = true →
            (handleFrame (handleFrame st frame).1 dup).2 = DispatchAction.event dup)) := by
  have h1 := handleFrame_resolves st frame h
  have hc : (handleFrame st frame).1.pending.contains frame.seq = false := by
    rw [h1]
    exact contains_mapDelete st.pending frame.seq
  refine ⟨by rw [h1], hc, ?_⟩
  intro dup hdup
  have hc2 : (handleFrame st frame).1.pending.contains dup.seq = false := by
    rw [hdup]
    exact hc
  have hu := handleFrame_unsolicited (handleFrame st frame).1 dup hc2
  refine ⟨hu.1, hu.2.1, ?_⟩
  intro hcb
  have hcb2 : (handleFrame st frame).1.incomingEventCallback = true := by
    rw [h1]
    exact hcb
  rw [hu.2.2.1 hcb2]

/-- Witness for C1 at a concrete input: an open client with request 1
outstanding and the synthetic reply of spec section 8. -/
theorem response_resolves_matching_request_witness :
    pendingOneState.pending.contains syntheticResp.seq = true
    ∧ ((handleFrame pendingOneState syntheticResp).2
        = DispatchAction.resolved syntheticResp.seq syntheticResp
      ∧ (handleFrame pendingOneState syntheticResp).1.pending.contains syntheticResp.seq = false
      ∧ (∀ dup : RpcResponse, dup.seq = syntheticResp.seq →
          (handleFrame (handleFrame pendingOneState syntheticResp).1 dup).1
            = (handleFrame pendingOneState syntheticResp).1
          ∧ (∀ q f, (handleFrame (handleFrame pendingOneState syntheticResp).1 dup).2
              ≠ DispatchAction.resolved q f)
          ∧ (pendingOneState.incomingEventCallback = true →
              (handleFrame (handleFrame pendingOneState syntheticResp).1 dup).2
                = DispatchAction.event dup))) :=
  ⟨rfl, response_resolves_matching_request pendingOneState syntheticResp rfl⟩

/-- Claim C2: when a pending request times out, the timeout callback
rejects it with the request-timeout error and the entry no longer exists
afterwards; settlement is exactly-once in both orders: after the response
resolved the entry, the timeout callback is a no-op, and after the timeout
removed the entry, a late frame with that seq never resolves anything and
leaves the state unchanged; the timer duration is the 30-second constant. -/
theorem timeout_rejects_and_cleans_up (st : ClientState) (s : Nat)
    (h : st.pending.contains s = true) :
    (timeoutFire st s).2 = TimeoutAction.rejected ClientError.requestTimeout
    ∧ (timeoutFire st s).1.pending.contains s = false
    ∧ (∀ frame : RpcResponse, frame.seq = s →
        timeoutFire (handleFrame st frame).1 s = ((handleFrame st frame).1, TimeoutAction.noop))
    ∧ (∀ frame : RpcResponse, frame.seq = s →
        (handleFrame (timeoutFire st s).1 frame).1 = (timeoutFire st s).1
        ∧ (∀ q f, (handleFrame (timeoutFire st s).1 frame).2 ≠ DispatchAction.resolved q f))
    ∧ REQUEST_TIMEOUT_MS = 30000 := by
  have h1 := timeoutFire_pending st s h
  have hc : (timeoutFire st s).1.pending.contains s = false := by
    rw [h1]
    exact contains_mapDelete st.pending s
  refine ⟨by rw [h1], hc, ?_, ?_, rfl⟩
  · intro frame hf
    have h2 := handleFrame_resolves st frame (by rw [hf]; exact h)
    have h3 : (handleFrame st frame).1.pending.contains s = false := by
      rw [h2, ← hf]
      exact contains_mapDelete st.pending frame.seq
    have h4 := timeoutFire_absent (handleFrame st frame).1 s h3
    rw [h4]
  · intro frame hf
    have h5 : (timeoutFire st s).1.pending.contains frame.seq = false := by
      rw [hf]
      exact hc
    have hu := handleFrame_unsolicited (timeoutFire st s).1 frame h5
    exact ⟨hu.1, hu.2.1⟩

/-- Witness for C2 at a concrete input: request 1 outstanding, seq 1. -/
theorem timeout_rejects_and_cleans_up_witness :
    pendingOneState.pending.contains 1 = true
    ∧ ((timeoutFire pendingOneState 1).2 = TimeoutAction.rejected ClientError.requestTimeout
      ∧ (timeoutFire pendingOneState 1).1.pending.contains 1 = false
      ∧ (∀ frame : RpcResponse, frame.seq = 1 →
          timeoutFire (handleFrame pendingOneState frame).1 1
            = ((handleFrame pendingOneState frame).1, TimeoutAction.noop))
      ∧ (∀ frame : RpcResponse, frame.seq = 1 →
          (handleFrame (timeoutFire pendingOneState 1).1 frame).1 = (timeoutFire pendingOneState 1).1
          ∧ (∀ q f, (handleFrame (timeoutFire pendingOneState 1).1 frame).2
              ≠ DispatchAction.resolved q f))
      ∧ REQUEST_TIMEOUT_MS = 30000) :=
  ⟨rfl, timeout_rejects_and_cleans_up pendingOneState 1 rfl⟩

/-- Claim C4: a well-formed incoming frame whose seq matches no pending
entry, received while an event callback is registered, is forwarded to
that callback and settles no pending request: the client state, in
particular the pending table, is unchanged, and the dispatch action is
never a resolution. -/
theorem unsolicited_frame_forwarded (st : ClientState) (frame : RpcResponse)
    (hcb : st.incomingEventCallback = true)
    (h : st.pending.contains frame.seq = false) :
    handleFrame st frame = (st, DispatchAction.event frame)
    ∧ (handleFrame st frame).1.pending = st.pending
    ∧ (∀ q f, (handleFrame st frame).2 ≠ DispatchAction.resolved q f) := by
  have hu := handleFrame_unsolicited st frame h
  exact ⟨hu.2.2.1 hcb, by rw [hu.1], hu.2.1⟩

/-- Witness for C4 at a concrete input: an open client with a registered
callback, no pending requests, and a pushed frame with seq 1. -/
theorem unsolicited_frame_forwarded_witness :
    callbackState.incomingEventCallback = true
    ∧ callbackState.pending.contains syntheticResp.seq = false
    ∧ (handleFrame callbackState syntheticResp = (callbackState, DispatchAction.event syntheticResp)
      ∧ (handleFrame callbackState syntheticResp).1.pending = callbackState.pending
      ∧ (∀ q f, (handleFrame callbackState syntheticResp).2 ≠ DispatchAction.resolved q f)) :=
  ⟨rfl, rfl, unsolicited_frame_forwarded callbackState syntheticResp rfl rfl⟩

/-- Claim C9: every request envelope built by invokeMethod on a connected
client has exactly the shape ver 11, cmd 0, seq the allocated sequence
number (the counter value at call time), the given opcode and the given
payload, for every opcode and payload; ver is the protocol-version
constant 11. -/
theorem request_envelope_shape (st : ClientState) (opcode : Nat) (payload : Json)
    (h : st.connection = true) :
    (invokeMethod st opcode payload).2
      = Except.ok (⟨RPC_VERSION, 0, st.seq, opcode, payload⟩ : RpcRequest)
    ∧ RPC_VERSION = 11 :=
  ⟨by simp [invokeMethod, h], rfl⟩

/-- Witness for C9 at a concrete input: the open client, opcode 64 and a
sample payload. -/
theorem request_envelope_shape_witness :
    openState.connection = true
    ∧ ((invokeMethod openState 64 (Json.str "hi")).2
        = Except.ok (⟨RPC_VERSION, 0, openState.seq, 64, Json.str "hi"⟩ : RpcRequest)
      ∧ RPC_VERSION = 11) :=
  ⟨rfl, request_envelope_shape openState 64 (Json.str "hi") rfl⟩

end VkMax

namespace VkMax

/-- Claim C3: over any sequence of invokeMethod calls on one connected
client, the assigned sequence numbers are exactly the consecutive range
starting at the current counter, hence strictly increasing, pairwise
distinct (never reused), one per outbound request (the counter advances by
exactly the number of calls); the counter starts at 1 in a fresh client,
and neither frame handling nor a timeout ever resets it. -/
theorem invoke_seqs_strictly_increasing (st : ClientState) (calls : List (Nat × Json))
    (h : st.connection = true) :
    (applyInvokes st calls).2 = List.range' st.seq calls.length
    ∧ List.Pairwise (fun a b => a < b) (applyInvokes st calls).2
    ∧ (applyInvokes st calls).2.Nodup
    ∧ (applyInvokes st calls).2.length = calls.length
    ∧ (applyInvokes st calls).1.seq = st.seq + calls.length
    ∧ initialState.seq = 1
    ∧ (∀ frame : RpcResponse, (handleFrame st frame).1.seq = st.seq)
    ∧ (∀ s : Nat, (timeoutFire st s).1.seq = st.seq) := by
  obtain ⟨h1, h2, h3⟩ := applyInvokes_spec calls st h
  refine ⟨h1, ?_, ?_, ?_, h2, rfl, ?_, ?_⟩
  · rw [h1]
    exact List.pairwise_lt_range' st.seq calls.length
  · rw [h1]
    exact List.nodup_range' st.seq calls.length
  · rw [h1]
    exact List.length_range' st.seq 1 calls.length
  · intro frame
    unfold handleFrame
    split
    · rfl
    · split <;> rfl
  · intro s
    unfold timeoutFire
    split
    · rfl
    · rfl

/-- Witness for C3 at a concrete input: two calls on the open client. -/
theorem invoke_seqs_strictly_increasing_witness :
    openState.connection = true
    ∧ ((applyInvokes openState [(64, Json.null), (1, Json.null)]).2
        = List.range' openState.seq [(64, Json.null), (1, Json.null)].length
      ∧ List.Pairwise (fun a b => a < b) (applyInvokes openState [(64, Json.null), (1, Json.null)]).2
      ∧ (applyInvokes openState [(64, Json.null), (1, Json.null)]).2.Nodup
      ∧ (applyInvokes openState [(64, Json.null), (1, Json.null)]).2.length
          = [(64, Json.null), (1, Json.null)].length
      ∧ (applyInvokes openState [(64, Json.null), (1, Json.null)]).1.seq
          = openState.seq + [(64, Json.null), (1, Json.null)].length
      ∧ initialState.seq = 1
      ∧ (∀ frame : RpcResponse, (handleFrame openState frame).1.seq = openState.seq)
      ∧ (∀ s : Nat, (timeoutFire openState s).1.seq = openState.seq)) :=
  ⟨rfl, invoke_seqs_strictly_increasing openState [(64, Json.null), (1, Json.null)] rfl⟩

/-- Claim C5 counterexample: connect assigns the WebSocket handle
synchronously inside the promise executor, before the open event fires, so
in the Connecting state (handle set, isConnected still false) invokeMethod
passes its null-handle guard: it does not fail with the not-connected
error; it allocates sequence number 1, advances the counter and registers
a pending entry — refuting the claim that a call made before the open
event fails with NotConnectedError without allocating a sequence number or
creating a pending entry. -/
theorem invoke_while_connecting_counterexample :
    connect initialState = Except.ok connectingState
    ∧ connectingState.isConnected = false
    ∧ (invokeMethod connectingState OPCODE_HELLO Json.null).2
        = Except.ok (⟨11, 0, 1, 6, Json.null⟩ : RpcRequest)
    ∧ (invokeMethod connectingState OPCODE_HELLO Json.null).1.seq = 2
    ∧ (invokeMethod connectingState OPCODE_HELLO Json.null).1.pending = [1] :=
  ⟨rfl, rfl, rfl, rfl, rfl⟩

/-- Claim C5 (amended): invokeMethod fails with the not-connected error
exactly when the connection handle is null — before any connect, or after
the close event nulled the handle — and such a failure changes nothing: no
sequence number is allocated, nothing is sent, no pending entry is
created; whenever the handle exists (while still Connecting as well as
once Open) the guard passes and this error is not raised. -/
theorem invoke_not_connected_iff_no_handle (st : ClientState) (opcode : Nat) (payload : Json) :
    ((invokeMethod st opcode payload).2 = Except.error ClientError.notConnected
      ↔ st.connection = false)
    ∧ (st.connection = false →
        invokeMethod st opcode payload = (st, Except.error ClientError.notConnected))
    ∧ (onClose st).connection = false := by
  refine ⟨?_, ?_, rfl⟩
  · cases hc : st.connection <;> simp [invokeMethod, hc]
  · intro hf
    simp [invokeMethod, hf]

/-- Witness for C5 (amended) at a concrete input: the fresh client with no
handle. -/
theorem invoke_not_connected_iff_no_handle_witness :
    (((invokeMethod initialState OPCODE_HELLO Json.null).2
        = Except.error ClientError.notConnected ↔ initialState.connection = false)
    ∧ (initialState.connection = false →
        invokeMethod initialState OPCODE_HELLO Json.null
          = (initialState, Except.error ClientError.notConnected))
    ∧ (onClose initialState).connection = false) :=
  invoke_not_connected_iff_no_handle initialState OPCODE_HELLO Json.null

end VkMax

namespace VkMax

/-- Claim C6 counterexample: a VERIFY_CODE response whose payload carries
an error field holding the empty string refutes the claim — the guard on
responsePayload.error is a JavaScript truthiness test and the empty string
is falsy, so signIn does not reject and the state does not stay unchanged:
the call resolves with the response, sets the logged-in flag and starts
the keepalive task. -/
theorem signIn_empty_error_counterexample :
    hasField emptyErrorResp.payload "error" = true
    ∧ openState.isLoggedIn = false
    ∧ signInAfterResponse openState emptyErrorResp
        = ({ openState with isLoggedIn := true, keepaliveTask := true }, Except.ok emptyErrorResp)
    ∧ ({ openState with isLoggedIn := true, keepaliveTask := true } : ClientState).isLoggedIn = true
    ∧ ({ openState with isLoggedIn := true, keepaliveTask := true } : ClientState).keepaliveTask = true :=
  ⟨rfl, rfl, rfl, rfl, rfl⟩

/-- Claim C6 (amended): for every signIn call whose VERIFY_CODE response
payload carries a truthy error value (any non-empty string, in
particular), the call rejects with an error carrying exactly that value
and the client state is unchanged by the failure: the logged-in flag keeps
its value (so it remains false in the fresh auth flow) and the keepalive
task is not started.  An error field holding a falsy value such as the
empty string is not treated as an error by the code. -/
theorem signIn_truthy_error_rejects (st : ClientState) (resp : RpcResponse) (e : Json)
    (h : jsMember resp.payload "error" = Except.ok (some e)) (ht : jsTruthy e = true) :
    signInAfterResponse st resp = (st, Except.error (ClientError.appError e))
    ∧ (signInAfterResponse st resp).1.isLoggedIn = st.isLoggedIn
    ∧ (signInAfterResponse st resp).1.keepaliveTask = st.keepaliveTask := by
  have h1 := signInAfterResponse_truthy_error st resp e h ht
  exact ⟨h1, by rw [h1], by rw [h1]⟩

/-- Witness for C6 (amended) at a concrete input: the bad_code scenario of
spec section 8 on a fresh open client. -/
theorem signIn_truthy_error_rejects_witness :
    jsMember badCodeResp.payload "error" = Except.ok (some (Json.str "bad_code"))
    ∧ jsTruthy (Json.str "bad_code") = true
    ∧ (signInAfterResponse openState badCodeResp
        = (openState, Except.error (ClientError.appError (Json.str "bad_code")))
      ∧ (signInAfterResponse openState badCodeResp).1.isLoggedIn = openState.isLoggedIn
      ∧ (signInAfterResponse openState badCodeResp).1.keepaliveTask = openState.keepaliveTask) :=
  ⟨rfl, rfl, signIn_truthy_error_rejects openState badCodeResp (Json.str "bad_code") rfl rfl⟩

/-- Claim C7 counterexample: disconnect on a logged-in client succeeds,
stops the keepalive timer and clears the connected mark, but it never
assigns the logged-in flag, so isLoggedIn still reports true afterwards —
refuting the claim that the session state including the logged-in flag is
cleared so that isLoggedIn reports false. -/
theorem disconnect_keeps_loggedIn_counterexample :
    loggedInState.isLoggedIn = true
    ∧ disconnect loggedInState
        = Except.ok ({ loggedInState with keepaliveTask := false, isConnected := false }, true)
    ∧ ({ loggedInState with keepaliveTask := false, isConnected := false } : ClientState).isLoggedIn
        = true :=
  ⟨rfl, rfl, rfl⟩

/-- Claim C7 (amended): after every successful disconnect call, the
keepalive timer handle is cleared, close() has been called on the
transport (the Bool in the result records the call) and the connected mark
is false; the logged-in flag is NOT cleared: isLoggedIn keeps exactly its
prior value, so it still reports true after disconnecting a logged-in
client.  The recv-interval handle is untouched because it is never
assigned anywhere. -/
theorem disconnect_stops_keepalive_keeps_loggedIn (st : ClientState)
    (h : st.connection = true) :
    disconnect st = Except.ok ({ stopKeepaliveTask st with isConnected := false }, true)
    ∧ ({ stopKeepaliveTask st with isConnected := false } : ClientState).keepaliveTask = false
    ∧ ({ stopKeepaliveTask st with isConnected := false } : ClientState).isConnected = false
    ∧ ({ stopKeepaliveTask st with isConnected := false } : ClientState).isLoggedIn = st.isLoggedIn
    ∧ ({ stopKeepaliveTask st with isConnected := false } : ClientState).recvTask = st.recvTask := by
  refine ⟨by simp [disconnect, h], ?_, rfl, ?_, ?_⟩
  · show (stopKeepaliveTask st).keepaliveTask = false
    cases hk : st.keepaliveTask <;> simp [stopKeepaliveTask, hk]
  · show (stopKeepaliveTask st).isLoggedIn = st.isLoggedIn
    cases hk : st.keepaliveTask <;> simp [stopKeepaliveTask, hk]
  · show (stopKeepaliveTask st).recvTask = st.recvTask
    cases hk : st.keepaliveTask <;> simp [stopKeepaliveTask, hk]

/-- Witness for C7 (amended) at a concrete input: the logged-in client. -/
theorem disconnect_stops_keepalive_keeps_loggedIn_witness :
    loggedInState.connection = true
    ∧ (disconnect loggedInState
        = Except.ok ({ stopKeepaliveTask loggedInState with isConnected := false }, true)
      ∧ ({ stopKeepaliveTask loggedInState with isConnected := false } : ClientState).keepaliveTask = false
      ∧ ({ stopKeepaliveTask loggedInState with isConnected := false } : ClientState).isConnected = false
      ∧ ({ stopKeepaliveTask loggedInState with isConnected := false } : ClientState).isLoggedIn
          = loggedInState.isLoggedIn
      ∧ ({ stopKeepaliveTask loggedInState with isConnected := false } : ClientState).recvTask
          = loggedInState.recvTask) :=
  ⟨rfl, disconnect_stops_keepalive_keeps_loggedIn loggedInState rfl⟩

end VkMax

namespace VkMax

/-- Claim C8 counterexample: on a client whose keepalive task is already
running, a second login whose response payload is the JSON value null —
a payload carrying no error field — does not fail with the
keepalive-already-started error: reading responsePayload.error throws a
TypeError before the keepalive check is ever reached. -/
theorem second_login_null_payload_counterexample :
    loggedInState.keepaliveTask = true
    ∧ hasField nullPayloadResp.payload "error" = false
    ∧ signInAfterResponse loggedInState nullPayloadResp
        = (loggedInState, Except.error ClientError.typeError)
    ∧ ClientError.typeError ≠ ClientError.keepaliveAlreadyStarted :=
  ⟨rfl, rfl, rfl, fun hcon => ClientError.noConfusion hcon⟩

/-- Claim C8 (amended): after a login operation completed successfully
once (so a keepalive timer handle exists), a second signIn or loginByToken
call made without an intervening disconnect — whose own response payload
is not the JSON value null and carries no truthy error field — fails with
the keepalive-already-started error, because the keepalive-task starter
forbids a double start while a handle exists; the logged-in flag
assignment preceding the start has already taken effect when the error is
thrown. -/
theorem second_login_keepalive_already_started (st : ClientState) (resp : RpcResponse)
    (hk : st.keepaliveTask = true)
    (hnn : resp.payload ≠ Json.null)
    (herr : truthyField resp.payload "error" = false) :
    signInAfterResponse st resp
      = ({ st with isLoggedIn := true }, Except.error ClientError.keepaliveAlreadyStarted)
    ∧ loginByTokenAfterResponse st resp
      = ({ st with isLoggedIn := true }, Except.error ClientError.keepaliveAlreadyStarted) := by
  have h1 := signInAfterResponse_no_truthy_error st resp hnn herr
  have h2 := completeLogin_keepalive_running st resp hk
  constructor
  · rw [h1, h2]
  · rw [loginByToken_eq_signIn, h1, h2]

/-- Witness for C8 (amended) at a concrete input: the logged-in client
receiving a successful login response with a profile and no error. -/
theorem second_login_keepalive_already_started_witness :
    loggedInState.keepaliveTask = true
    ∧ okLoginResp.payload ≠ Json.null
    ∧ truthyField okLoginResp.payload "error" = false
    ∧ (signInAfterResponse loggedInState okLoginResp
        = ({ loggedInState with isLoggedIn := true },
           Except.error ClientError.keepaliveAlreadyStarted)
      ∧ loginByTokenAfterResponse loggedInState okLoginResp
        = ({ loggedInState with isLoggedIn := true },
           Except.error ClientError.keepaliveAlreadyStarted)) :=
  ⟨rfl, fun hcon => Json.noConfusion hcon, rfl,
    second_login_keepalive_already_started loggedInState okLoginResp rfl
      (fun hcon => Json.noConfusion hcon) rfl⟩

/-- Claim C10 counterexample: a START_AUTH response whose payload is the
JSON value null lacks a token, yet sendCode does not resolve with
undefined: the member access payload.token on null throws a TypeError and
the call rejects — refuting the universal claim that every response whose
payload lacks a token makes sendCode resolve successfully with
undefined. -/
theorem sendCode_null_payload_counterexample :
    hasField nullStartAuthResp.payload "token" = false
    ∧ sendCodeExtractToken nullStartAuthResp = Except.error ClientError.typeError :=
  ⟨rfl, rfl⟩

/-- Claim C10 (amended): sendCode returns the token member of the
START_AUTH response payload without inspecting any application-level error
field; for every response whose payload is not the JSON value null and
lacks a token field — for example a payload carrying only an error —
sendCode resolves successfully with undefined (none) instead of rejecting,
so a server-side auth failure at this step is not surfaced as an error to
the caller; only a null payload makes the member access itself throw. -/
theorem sendCode_missing_token_yields_undefined (resp : RpcResponse)
    (hnn : resp.payload ≠ Json.null)
    (hnt : hasField resp.payload "token" = false) :
    sendCodeExtractToken resp = Except.ok none := by
  unfold sendCodeExtractToken
  cases hp : resp.payload with
  | null => exact absurd hp hnn
  | bool b => rfl
  | num n => rfl
  | str s => rfl
  | arr elems => rfl
  | obj fields =>
    rw [hp] at hnt
    simp [hasField] at hnt
    show jsMember (Json.obj fields) "token" = Except.ok none
    simp [jsMember, hnt]

/-- Witness for C10 (amended) at a concrete input: a START_AUTH response
whose payload carries only an error field. -/
theorem sendCode_missing_token_yields_undefined_witness :
    errorOnlyStartAuthResp.payload ≠ Json.null
    ∧ hasField errorOnlyStartAuthResp.payload "token" = false
    ∧ sendCodeExtractToken errorOnlyStartAuthResp = Except.ok none :=
  ⟨fun hcon => Json.noConfusion hcon, rfl,
    sendCode_missing_token_yields_undefined errorOnlyStartAuthResp
      (fun hcon => Json.noConfusion hcon) rfl⟩

end VkMax
